import Mathlib

/-!
Verification of `scripts/_rewrite_contacts_import_modal.py`.

The script checks that a fixed template file exists, reads its text, strips
trailing whitespace and appends a single newline, writes the result to a fixed
target path, and reports the number of lines (Python `str.splitlines`
semantics).  We embed file contents as `List Char` (the text as read), the
filesystem as a map from path strings to optional contents, and the run as a
function from worlds to a result together with the final world.
-/

/-- Whitespace characters stripped by Python `str.rstrip()` with no argument
(the `str.isspace` set). -/
def pyIsSpace (c : Char) : Bool :=
  (0x09 ≤ c.toNat && c.toNat ≤ 0x0d) || (0x1c ≤ c.toNat && c.toNat ≤ 0x20) ||
  c.toNat == 0x85 || c.toNat == 0xa0 || c.toNat == 0x1680 ||
  (0x2000 ≤ c.toNat && c.toNat ≤ 0x200a) || c.toNat == 0x2028 || c.toNat == 0x2029 ||
  c.toNat == 0x202f || c.toNat == 0x205f || c.toNat == 0x3000

/-- Line-boundary characters recognised by Python `str.splitlines`. -/
def isLineBoundary (c : Char) : Bool :=
  (0x0a ≤ c.toNat && c.toNat ≤ 0x0d) || (0x1c ≤ c.toNat && c.toNat ≤ 0x1e) ||
  c.toNat == 0x85 || c.toNat == 0x2028 || c.toNat == 0x2029

/-- Python `str.rstrip()`: drop trailing whitespace characters. -/
def pyRstrip (l : List Char) : List Char :=
  (l.reverse.dropWhile pyIsSpace).reverse

/-- Line 11 of the script: `content = TEMPLATE_PATH.read_text(...).rstrip() + "\n"`. -/
def normalizeContent (l : List Char) : List Char :=
  pyRstrip l ++ ['\n']

/-- Worker for Python `str.splitlines`: `cur` is the current line accumulated
in reverse; `afterCR` records that the previous character was a carriage
return, so that a following line feed is part of the same (already emitted)
`"\x0d\x0a"` break; a string ending in a break contributes no further (empty)
line. -/
def pySplitlinesAux (cur : List Char) (afterCR : Bool) : List Char → List (List Char)
  | [] => if cur.isEmpty then [] else [cur.reverse]
  | c :: cs =>
    if afterCR && c == '\n' then pySplitlinesAux cur false cs
    else if c == '\x0d' then cur.reverse :: pySplitlinesAux [] true cs
    else if isLineBoundary c then cur.reverse :: pySplitlinesAux [] false cs
    else pySplitlinesAux (c :: cur) false cs

/-- Python `str.splitlines`. -/
def pySplitlines (l : List Char) : List (List Char) :=
  pySplitlinesAux [] false l

/-- Line 13 of the script: `line_count = len(content.splitlines())`. -/
def lineCount (l : List Char) : Nat :=
  (pySplitlines l).length

/-- Modelled from the spec: worker splitting on the newline character only,
for the notion of "newline-delimited segments". -/
def nlSegAux (cur : List Char) : List Char → List (List Char)
  | [] => if cur.isEmpty then [] else [cur.reverse]
  | c :: cs =>
    if c == '\n' then cur.reverse :: nlSegAux [] cs
    else nlSegAux (c :: cur) cs

/-- Modelled from the spec: the newline-delimited segments of a content,
delimited by the newline character only (a trailing newline closes the last
segment and adds no empty one). -/
def newlineSegments (l : List Char) : List (List Char) :=
  nlSegAux [] l

/-- Fixed template path (`Path(__file__).with_name("contacts-import-modal.tsx.template")`). -/
def TEMPLATE_PATH : String := "scripts/contacts-import-modal.tsx.template"

/-- Fixed destination path (line 4 of the script). -/
def TARGET_PATH : String := "app/(dashboard)/contacts/contacts-import-modal.tsx"

/-- Failures the run can surface: `FileNotFoundError` with the missing path, or
an OS-level write error on a path. -/
inductive Err where
  | fileNotFound : String → Err
  | ioError : String → Err
deriving DecidableEq

/-- The world the script acts on: a filesystem mapping each path to the text
content of the file there (if any), and which paths accept a write. -/
structure World where
  fs : String → Option (List Char)
  writable : String → Bool

/-- A successful `write_text`: the target path now holds exactly the new
content; every other path is unchanged. -/
def writeFile (w : World) (p : String) (c : List Char) : World :=
  { w with fs := fun q => if q = p then some c else w.fs q }

/-- The confirmation message `f"Wrote {TARGET_PATH} ({line_count} lines)"`. -/
def message (n : Nat) : String :=
  "Wrote " ++ TARGET_PATH ++ " (" ++ toString n ++ " lines)"

/-- The operation (the script's `main()`): existence check, read, normalize,
write, report.  The first component is the process outcome (`ok` with the
printed message, or the uncaught exception); the second is the filesystem
world when the process ends. -/
def run (w : World) : Except Err String × World :=
  match w.fs TEMPLATE_PATH with
  | none => (Except.error (Err.fileNotFound TEMPLATE_PATH), w)
  | some raw =>
    if w.writable TARGET_PATH then
      (Except.ok (message (lineCount (normalizeContent raw))),
        writeFile w TARGET_PATH (normalizeContent raw))
    else
      (Except.error (Err.ioError TARGET_PATH), w)

/-- A world holding only the template, with content `t`; everything writable. -/
def sampleWorld (t : List Char) : World :=
  { fs := fun p => if p = TEMPLATE_PATH then some t else none,
    writable := fun _ => true }

/-- A world holding the template (content `t`) and a pre-existing destination
(content `prior`); everything writable. -/
def worldWithTarget (t prior : List Char) : World :=
  { fs := fun p =>
      if p = TEMPLATE_PATH then some t
      else if p = TARGET_PATH then some prior else none,
    writable := fun _ => true }

/-- A world with no files at all; everything writable. -/
def emptyWorld : World :=
  { fs := fun _ => none, writable := fun _ => true }

theorem run_none (w : World) (h : w.fs TEMPLATE_PATH = none) :
    run w = (Except.error (Err.fileNotFound TEMPLATE_PATH), w) := by
  unfold run; rw [h]

theorem run_some (w : World) (t : List Char) (h : w.fs TEMPLATE_PATH = some t)
    (hw : w.writable TARGET_PATH = true) :
    run w = (Except.ok (message (lineCount (normalizeContent t))),
      writeFile w TARGET_PATH (normalizeContent t)) := by
  unfold run; rw [h]; simp [hw]

theorem run_noWrite (w : World) (t : List Char) (h : w.fs TEMPLATE_PATH = some t)
    (hw : w.writable TARGET_PATH = false) :
    run w = (Except.error (Err.ioError TARGET_PATH), w) := by
  unfold run; rw [h]; simp [hw]

theorem writeFile_fs_self (w : World) (p : String) (c : List Char) :
    (writeFile w p c).fs p = some c := by
  simp [writeFile]

theorem writeFile_fs_other (w : World) (p q : String) (c : List Char) (h : q ≠ p) :
    (writeFile w p c).fs q = w.fs q := by
  simp [writeFile, h]

theorem dropWhile_dropWhile (p : Char → Bool) (l : List Char) :
    (l.dropWhile p).dropWhile p = l.dropWhile p := by
  induction l with
  | nil => rfl
  | cons a l ih =>
    cases h : p a with
    | true => simp [List.dropWhile_cons, h, ih]
    | false => simp [List.dropWhile_cons, h]

theorem pyRstrip_normalizeContent (l : List Char) :
    pyRstrip (normalizeContent l) = pyRstrip l := by
  have h1 : pyIsSpace '\n' = true := rfl
  simp [normalizeContent, pyRstrip, List.reverse_append, List.dropWhile_cons, h1,
    dropWhile_dropWhile]

theorem normalizeContent_idem (l : List Char) :
    normalizeContent (normalizeContent l) = normalizeContent l := by
  show pyRstrip (normalizeContent l) ++ ['\n'] = normalizeContent l
  rw [pyRstrip_normalizeContent]
  rfl

theorem mem_of_mem_dropWhile (p : Char → Bool) (l : List Char) (c : Char)
    (h : c ∈ l.dropWhile p) : c ∈ l := by
  induction l with
  | nil => simp at h
  | cons a l ih =>
    rw [List.dropWhile_cons] at h
    split at h
    · exact List.mem_cons_of_mem a (ih h)
    · exact h

theorem mem_of_mem_pyRstrip (l : List Char) (c : Char) (h : c ∈ pyRstrip l) : c ∈ l := by
  unfold pyRstrip at h
  rw [List.mem_reverse] at h
  have h2 := mem_of_mem_dropWhile pyIsSpace l.reverse c h
  exact List.mem_reverse.mp h2

theorem pyRstrip_eq_nil (l : List Char) (h : ∀ c ∈ l, pyIsSpace c = true) :
    pyRstrip l = [] := by
  unfold pyRstrip
  have h2 : l.reverse.dropWhile pyIsSpace = [] := by
    rw [List.dropWhile_eq_nil_iff]
    intro x hx
    exact h x (List.mem_reverse.mp hx)
  rw [h2]
  rfl

theorem splitlinesAux_eq_nlSegAux : ∀ (cs : List Char),
    (∀ c ∈ cs, isLineBoundary c = true → c = '\n') → ∀ (cur : List Char),
    pySplitlinesAux cur false cs = nlSegAux cur cs := by
  intro cs
  induction cs with
  | nil => intro _ cur; rfl
  | cons c cs ih =>
    intro h cur
    have hc : isLineBoundary c = true → c = '\n' := h c (List.mem_cons_self c cs)
    have hcs : ∀ d ∈ cs, isLineBoundary d = true → d = '\n' :=
      fun d hd hb => h d (List.mem_cons_of_mem c hd) hb
    cases hb : isLineBoundary c with
    | true =>
      have hlf : c = '\n' := hc hb
      subst hlf
      show cur.reverse :: pySplitlinesAux [] false cs = cur.reverse :: nlSegAux [] cs
      rw [ih hcs]
    | false =>
      have hcr : (c == '\x0d') = false := by
        cases hx : c == '\x0d' with
        | false => rfl
        | true =>
          rw [eq_of_beq hx] at hb
          exact absurd hb (by decide)
      have hlf : (c == '\n') = false := by
        cases hx : c == '\n' with
        | false => rfl
        | true =>
          rw [eq_of_beq hx] at hb
          exact absurd hb (by decide)
      simp only [pySplitlinesAux, nlSegAux, Bool.false_and, Bool.false_eq_true, if_false,
        hb, hcr, hlf]
      exact ih hcs (c :: cur)

theorem pySplitlinesAux_ne_nil : ∀ (cs : List Char), cs ≠ [] → ∀ (cur : List Char),
    pySplitlinesAux cur false cs ≠ [] := by
  intro cs
  induction cs with
  | nil => intro h; exact absurd rfl h
  | cons c cs ih =>
    intro _ cur
    unfold pySplitlinesAux
    split
    · next hcond => simp at hcond
    · split
      · exact List.cons_ne_nil _ _
      · split
        · exact List.cons_ne_nil _ _
        · cases cs with
          | nil =>
            unfold pySplitlinesAux
            simp
          | cons d ds => exact ih (List.cons_ne_nil d ds) (c :: cur)

theorem lineCount_normalize_pos (l : List Char) : 1 ≤ lineCount (normalizeContent l) := by
  have h : normalizeContent l ≠ [] := by simp [normalizeContent]
  have h2 := pySplitlinesAux_ne_nil (normalizeContent l) h []
  unfold lineCount pySplitlines
  exact List.length_pos.mpr h2

-- Sanity checks (concrete evaluations of the embedding).
example : normalizeContent "abc\n\n\n".data = "abc\n".data := by decide
example : lineCount "export const X = 1;\n".data = 1 := by decide
example : pySplitlines "a\x0b b\n".data = ["a".data, " b".data] := by decide
example : pySplitlines "a\x0d\nb".data = ["a".data, "b".data] := by decide
example : pySplitlines "".data = [] := by decide
example : pySplitlines "\n".data = [[]] := by decide
example : newlineSegments "a\x0bb\n".data = ["a\x0bb".data] := by decide

/-- C1: for every template content read as UTF-8 text, a successful run writes
to the destination exactly the template content with all trailing whitespace
and newline characters stripped, followed by exactly one newline; in
particular the normalization of `"abc\n\n\n"` is `"abc\n"`. -/
theorem C1_content_fidelity :
    (∀ (w : World) (t : List Char), w.fs TEMPLATE_PATH = some t →
      w.writable TARGET_PATH = true →
      (run w).2.fs TARGET_PATH = some (pyRstrip t ++ ['\n'])) ∧
    normalizeContent "abc\n\n\n".data = "abc\n".data := by
  constructor
  · intro w t h hw
    rw [run_some w t h hw]
    exact writeFile_fs_self w TARGET_PATH (normalizeContent t)
  · decide

/-- Witness for C1: a concrete run on template content `"abc\n\n\n"` leaves the
destination holding exactly `"abc\n"`. -/
theorem C1_witness :
    (run (sampleWorld "abc\n\n\n".data)).2.fs TARGET_PATH = some "abc\n".data := by
  have h := C1_content_fidelity.1 (sampleWorld "abc\n\n\n".data) "abc\n\n\n".data rfl rfl
  rw [h]
  decide

/-- C2 counterexample: for template content `"a\x0bb"` (a vertical tab between
two letters) the operation reports the Python `splitlines` count 2, while the
normalized content `"a\x0bb\n"` has a single newline-delimited segment, so the
reported count differs from the newline-delimited segment count. -/
theorem C2_counterexample :
    (run (sampleWorld ['a', '\x0b', 'b'])).1 =
      Except.ok (message (lineCount (normalizeContent ['a', '\x0b', 'b']))) ∧
    lineCount (normalizeContent ['a', '\x0b', 'b']) ≠
      (newlineSegments (normalizeContent ['a', '\x0b', 'b'])).length := by
  exact ⟨rfl, by decide⟩

/-- C2 (amended): for every template whose content contains no line-boundary
character other than the newline `'\n'`, the line count reported by a
successful run equals the number of newline-delimited segments of the
normalized content. -/
theorem C2_line_count :
    ∀ (w : World) (t : List Char), w.fs TEMPLATE_PATH = some t →
      w.writable TARGET_PATH = true →
      (∀ c ∈ t, isLineBoundary c = true → c = '\n') →
      (run w).1 = Except.ok (message ((newlineSegments (normalizeContent t)).length)) := by
  intro w t h hw hb
  rw [run_some w t h hw]
  have hnorm : ∀ c ∈ normalizeContent t, isLineBoundary c = true → c = '\n' := by
    intro c hc hbc
    rcases List.mem_append.mp hc with h1 | h2
    · exact hb c (mem_of_mem_pyRstrip t c h1) hbc
    · simpa using h2
  show Except.ok (message (lineCount (normalizeContent t))) = _
  congr 2
  unfold lineCount pySplitlines newlineSegments
  rw [splitlinesAux_eq_nlSegAux (normalizeContent t) hnorm []]

/-- Witness for C2 (amended): a concrete run on `"ab\ncd\n"` reports exactly
the number of newline-delimited segments of the normalized content. -/
theorem C2_line_count_witness :
    (run (sampleWorld "ab\ncd\n".data)).1 =
      Except.ok (message ((newlineSegments (normalizeContent "ab\ncd\n".data)).length)) :=
  C2_line_count (sampleWorld "ab\ncd\n".data) "ab\ncd\n".data rfl rfl (by decide)

/-- C3: if the template is absent, the run fails with `FileNotFoundError`
carrying the missing path, and the whole filesystem — in particular the
destination — is left exactly as it was. -/
theorem C3_missing_template :
    ∀ (w : World), w.fs TEMPLATE_PATH = none →
      (run w).1 = Except.error (Err.fileNotFound TEMPLATE_PATH) ∧
      (run w).2 = w ∧
      (run w).2.fs TARGET_PATH = w.fs TARGET_PATH := by
  intro w h
  rw [run_none w h]
  exact ⟨rfl, rfl, rfl⟩

/-- Witness for C3: on a world with no files, the run raises the
file-not-found error and changes nothing. -/
theorem C3_witness :
    (run emptyWorld).1 = Except.error (Err.fileNotFound TEMPLATE_PATH) ∧
    (run emptyWorld).2 = emptyWorld ∧
    (run emptyWorld).2.fs TARGET_PATH = emptyWorld.fs TARGET_PATH :=
  C3_missing_template emptyWorld rfl

/-- C4: whatever content the destination held before, after one successful run
it holds exactly the normalized template content — full overwrite, no merge,
no append. -/
theorem C4_overwrite :
    ∀ (w : World) (t prior : List Char), w.fs TEMPLATE_PATH = some t →
      w.fs TARGET_PATH = some prior → w.writable TARGET_PATH = true →
      (run w).2.fs TARGET_PATH = some (normalizeContent t) := by
  intro w t prior h hp hw
  rw [run_some w t h hw]
  exact writeFile_fs_self w TARGET_PATH (normalizeContent t)

/-- Witness for C4: a run over a pre-existing unrelated destination replaces
its content with the normalized template content. -/
theorem C4_witness :
    (run (worldWithTarget "x".data "old content".data)).2.fs TARGET_PATH =
      some (normalizeContent "x".data) :=
  C4_overwrite (worldWithTarget "x".data "old content".data) "x".data
    "old content".data rfl rfl rfl

/-- C5: for template content `"export const X = 1;\n   \n"`, a successful run
writes exactly `"export const X = 1;\n"` and reports a line count of 1. -/
theorem C5_scenario :
    ∀ (w : World), w.fs TEMPLATE_PATH = some "export const X = 1;\n   \n".data →
      w.writable TARGET_PATH = true →
      (run w).2.fs TARGET_PATH = some "export const X = 1;\n".data ∧
      (run w).1 = Except.ok (message 1) := by
  intro w h hw
  rw [run_some w "export const X = 1;\n   \n".data h hw]
  constructor
  · rw [writeFile_fs_self]
    decide
  · rfl

/-- Witness for C5: the scenario run on a concrete world. -/
theorem C5_witness :
    (run (sampleWorld "export const X = 1;\n   \n".data)).2.fs TARGET_PATH =
      some "export const X = 1;\n".data ∧
    (run (sampleWorld "export const X = 1;\n   \n".data)).1 = Except.ok (message 1) :=
  C5_scenario (sampleWorld "export const X = 1;\n   \n".data) rfl rfl

/-- C6: normalization is idempotent, and two successive runs with an unchanged
template leave the destination with byte-identical content. -/
theorem C6_idempotent :
    (∀ (t : List Char), normalizeContent (normalizeContent t) = normalizeContent t) ∧
    (∀ (w : World) (t : List Char), w.fs TEMPLATE_PATH = some t →
      w.writable TARGET_PATH = true →
      (run (run w).2).2.fs TARGET_PATH = (run w).2.fs TARGET_PATH) := by
  constructor
  · exact normalizeContent_idem
  · intro w t h hw
    rw [run_some w t h hw]
    have ht : (writeFile w TARGET_PATH (normalizeContent t)).fs TEMPLATE_PATH = some t := by
      rw [writeFile_fs_other w TARGET_PATH TEMPLATE_PATH (normalizeContent t) (by decide)]
      exact h
    have hw2 : (writeFile w TARGET_PATH (normalizeContent t)).writable TARGET_PATH = true := hw
    rw [run_some _ t ht hw2]
    rw [writeFile_fs_self, writeFile_fs_self]

/-- Witness for C6: idempotence evaluated at `"abc"`, and a concrete double
run whose destination content agrees with the single run. -/
theorem C6_witness :
    normalizeContent (normalizeContent "abc".data) = normalizeContent "abc".data ∧
    (run (run (sampleWorld "abc".data)).2).2.fs TARGET_PATH =
      (run (sampleWorld "abc".data)).2.fs TARGET_PATH :=
  ⟨C6_idempotent.1 "abc".data,
    C6_idempotent.2 (sampleWorld "abc".data) "abc".data rfl rfl⟩

/-- C7: the run succeeds exactly when the template exists and the destination
write succeeds; a missing template surfaces as the uncaught file-not-found
error, and an unwritable destination as the uncaught IO error. -/
theorem C7_exit_behavior :
    ∀ (w : World),
      ((∃ s, (run w).1 = Except.ok s) ↔
        ((∃ t, w.fs TEMPLATE_PATH = some t) ∧ w.writable TARGET_PATH = true)) ∧
      (w.fs TEMPLATE_PATH = none →
        (run w).1 = Except.error (Err.fileNotFound TEMPLATE_PATH)) ∧
      (∀ t, w.fs TEMPLATE_PATH = some t → w.writable TARGET_PATH = false →
        (run w).1 = Except.error (Err.ioError TARGET_PATH)) := by
  intro w
  refine ⟨⟨?_, ?_⟩, ?_, ?_⟩
  · rintro ⟨s, hs⟩
    cases htm : w.fs TEMPLATE_PATH with
    | none =>
      rw [run_none w htm] at hs
      simp at hs
    | some t =>
      cases hwr : w.writable TARGET_PATH with
      | false =>
        rw [run_noWrite w t htm hwr] at hs
        simp at hs
      | true => exact ⟨⟨t, rfl⟩, rfl⟩
  · rintro ⟨⟨t, ht⟩, hw⟩
    refine ⟨message (lineCount (normalizeContent t)), ?_⟩
    rw [run_some w t ht hw]
  · intro h
    rw [run_none w h]
  · intro t ht hw
    rw [run_noWrite w t ht hw]

/-- Witness for C7: on a world with no files the run surfaces the
file-not-found error. -/
theorem C7_witness :
    (run emptyWorld).1 = Except.error (Err.fileNotFound TEMPLATE_PATH) :=
  (C7_exit_behavior emptyWorld).2.1 rfl

/-- C8: a whitespace-only (in particular empty) template yields exactly a
single newline at the destination with a reported count of 1; for every
template the destination is non-empty and the line count is at least 1. -/
theorem C8_never_empty :
    ∀ (w : World) (t : List Char), w.fs TEMPLATE_PATH = some t →
      w.writable TARGET_PATH = true →
      ((∀ c ∈ t, pyIsSpace c = true) →
        (run w).2.fs TARGET_PATH = some ['\n'] ∧ (run w).1 = Except.ok (message 1)) ∧
      (run w).2.fs TARGET_PATH ≠ some [] ∧
      1 ≤ lineCount (normalizeContent t) := by
  intro w t h hw
  rw [run_some w t h hw]
  refine ⟨?_, ?_, lineCount_normalize_pos t⟩
  · intro hws
    have hnil : pyRstrip t = [] := pyRstrip_eq_nil t hws
    constructor
    · rw [writeFile_fs_self]
      unfold normalizeContent
      rw [hnil]
      rfl
    · show Except.ok (message (lineCount (normalizeContent t))) = Except.ok (message 1)
      unfold normalizeContent
      rw [hnil]
      rfl
  · rw [writeFile_fs_self]
    simp [normalizeContent]

/-- Witness for C8: the empty template writes exactly one newline and reports
one line. -/
theorem C8_witness :
    ((run (sampleWorld [])).2.fs TARGET_PATH = some ['\n'] ∧
      (run (sampleWorld [])).1 = Except.ok (message 1)) ∧
    (run (sampleWorld [])).2.fs TARGET_PATH ≠ some [] ∧
    1 ≤ lineCount (normalizeContent []) := by
  have h := C8_never_empty (sampleWorld []) [] rfl rfl
  exact ⟨h.1 (by decide), h.2⟩

/-- C9: no path other than the fixed destination is ever created, modified or
deleted by a run, whether it succeeds or fails. -/
theorem C9_frame :
    ∀ (w : World) (p : String), p ≠ TARGET_PATH → (run w).2.fs p = w.fs p := by
  intro w p hp
  cases htm : w.fs TEMPLATE_PATH with
  | none => rw [run_none w htm]
  | some t =>
    cases hwr : w.writable TARGET_PATH with
    | false => rw [run_noWrite w t htm hwr]
    | true =>
      rw [run_some w t htm hwr]
      exact writeFile_fs_other w TARGET_PATH p (normalizeContent t) hp

/-- Witness for C9: a concrete run leaves the template path untouched. -/
theorem C9_witness :
    (run emptyWorld).2.fs TEMPLATE_PATH = emptyWorld.fs TEMPLATE_PATH :=
  C9_frame emptyWorld TEMPLATE_PATH (by decide)

/-- C10: two runs whose templates hold identical text produce identical
destination content and identical confirmation messages, whatever the rest of
the two worlds looks like. -/
theorem C10_deterministic :
    ∀ (w1 w2 : World) (t : List Char),
      w1.fs TEMPLATE_PATH = some t → w2.fs TEMPLATE_PATH = some t →
      w1.writable TARGET_PATH = true → w2.writable TARGET_PATH = true →
      (run w1).2.fs TARGET_PATH = (run w2).2.fs TARGET_PATH ∧
      (run w1).1 = (run w2).1 := by
  intro w1 w2 t h1 h2 hw1 hw2
  rw [run_some w1 t h1 hw1, run_some w2 t h2 hw2]
  constructor
  · rw [writeFile_fs_self, writeFile_fs_self]
  · rfl

/-- Witness for C10: two concrete worlds with the same template text but
different destinations end with the same destination content and message. -/
theorem C10_witness :
    (run (sampleWorld "hi\n".data)).2.fs TARGET_PATH =
      (run (worldWithTarget "hi\n".data "zzz".data)).2.fs TARGET_PATH ∧
    (run (sampleWorld "hi\n".data)).1 =
      (run (worldWithTarget "hi\n".data "zzz".data)).1 :=
  C10_deterministic (sampleWorld "hi\n".data) (worldWithTarget "hi\n".data "zzz".data)
    "hi\n".data rfl rfl rfl rfl
